import Mathlib

/-!
Verification development for the `epd-waveshare` driver crate.

The crate drives Waveshare e-paper panels over SPI.  The protocol driver
(`src/epd4in2/mod.rs`) is straight-line imperative code over a small set of
hardware capabilities: an SPI bus (`spi.write`), three output pins
(chip-select `cs`, data/command `dc`, reset `rst`), one input pin (`busy`)
and a millisecond delay source.  We embed it shallowly:

* every driver operation is translated into a pure `List Act` of the
  abstract actions it performs (`send_command`, `send_data`,
  `send_multiple_data`, `delay_ms`, `wait_until_idle`, reset-pin writes),
  transcribed line by line from the Rust source;
* a small-step runner `runActs` expands those actions into the pin-level
  event trace (`Ev`), consulting an environment that decides which SPI
  write attempts fail and how many times each busy-wait polls low, and
  propagates the first bus error exactly as Rust's `?` operator does
  (the chip-select release inside `with_cs` still happens on failure).

The files `src/epd4in2/command.rs` and `src/epd4in2/lut.rs` are not part of
the sources available here; commands are therefore kept symbolic (the
variant names are the ones `mod.rs` uses) and the five LUT byte tables are
parameters of the operations that transmit them.
-/

namespace EpdWaveshare

namespace Epd2in9

/-- The EPD2in9 command enum from `src/epd2in9/command.rs`: exactly three
live variants, with the declared discriminants `0x01`, `0x0C`, `0x10`
(the other entries in the source are commented out). -/
inductive Command where
  | DRIVER_OUTPUT_CONTROL
  | BOOSTER_SOFT_START_CONTROL
  | DEEP_SLEEP_MODE
deriving DecidableEq

/-- `Command::address(self) -> u8 { self as u8 }`: the Rust enum cast
returns the declared discriminant of the variant. -/
def Command.address : Command → Nat
  | .DRIVER_OUTPUT_CONTROL => 0x01
  | .BOOSTER_SOFT_START_CONTROL => 0x0C
  | .DEEP_SLEEP_MODE => 0x10

end Epd2in9

namespace Epd4in2

/-- The symbolic EPD4in2 commands, exactly the variants `src/epd4in2/mod.rs`
uses (`src/epd4in2/command.rs`, which assigns their opcode bytes, is not
among the available sources, so commands stay symbolic). -/
inductive Command where
  | POWER_SETTING
  | BOOSTER_SOFT_START
  | POWER_ON
  | POWER_OFF
  | PANEL_SETTING
  | PLL_CONTROL
  | PARTIAL_IN
  | PARTIAL_WINDOW
  | PARTIAL_OUT
  | DATA_START_TRANSMISSION_1
  | DATA_START_TRANSMISSION_2
  | DISPLAY_REFRESH
  | LUT_FOR_VCOM
  | LUT_WHITE_TO_WHITE
  | LUT_BLACK_TO_WHITE
  | LUT_WHITE_TO_BLACK
  | LUT_BLACK_TO_BLACK
  | VCM_DC_SETTING
  | VCOM_AND_DATA_INTERVAL_SETTING
  | RESOLUTION_SETTING
  | DEEP_SLEEP
deriving DecidableEq

/-- Pin/bus level events of a run of the driver.  `cs`, `dc`, `rst` record
`set_high`/`set_low` on the respective output pins (`true` = high);
`writeCmd`/`write` record one `spi.write` attempt (a command opcode kept
symbolic, resp. a list of data bytes); `delayMs` records `delay_ms`;
`busyRead` records one poll of the busy input pin (`true` = pin reads low,
i.e. busy). -/
inductive Ev where
  | cs (high : Bool)
  | dc (high : Bool)
  | rst (high : Bool)
  | writeCmd (c : Command)
  | write (bytes : List Nat)
  | delayMs (n : Nat)
  | busyRead (low : Bool)
deriving DecidableEq

/-- The abstract straight-line actions a driver operation performs, at the
granularity of the private helpers of `EPD4in2`:  one `sendCommand /
sendData / sendMultipleData` action stands for one call of the
corresponding Rust helper (which wraps a single `spi.write` in the
`with_cs` chip-select bracket after setting the `dc` pin). -/
inductive Act where
  | sendCommand (c : Command)
  | sendData (b : Nat)
  | sendMultipleData (bs : List Nat)
  | delayMs (n : Nat)
  | waitUntilIdle
  | rstLow
  | rstHigh
deriving DecidableEq

/-- Environment of a run: `busErr i` tells whether the `i`-th `spi.write`
attempt (counting every write of the run, commands and data alike) fails,
and with which bus error; `idleLows i` tells how many times the busy pin
reads low during the `i`-th `wait_until_idle` call before it reads high. -/
structure Env (ε : Type) where
  busErr : Nat → Option ε
  idleLows : Nat → Nat

/-- The environment in which every SPI transfer succeeds. -/
def okEnv {ε : Type} (idleLows : Nat → Nat) : Env ε :=
  ⟨fun _ => none, idleLows⟩

/-- Event trace of one `wait_until_idle` call that polls the busy pin low
`k` times before reading it high:  `while self.busy.is_low() { self.delay_ms(10); }`
reads the pin, and after each low reading delays 10 ms before re-polling. -/
def waitEvents : Nat → List Ev
  | 0 => [Ev.busyRead false]
  | k + 1 => Ev.busyRead true :: Ev.delayMs 10 :: waitEvents k

/-- Run a list of actions, threading the SPI-write counter `wi` and the
busy-wait counter `ti` through the environment.  Each send action expands
to its `with_cs` bracket: `dc` pin first (low for a command, high for
data), then chip-select low, the `spi.write` attempt, then chip-select
high — the chip-select release happens whether or not the write failed,
exactly as in `with_cs`.  The first failing write aborts the rest of the
action list (Rust's `?`), returning the bus error. -/
def runActs {ε : Type} (env : Env ε) : List Act → Nat → Nat → List Ev × Except ε Unit
  | [], _, _ => ([], Except.ok ())
  | Act.sendCommand c :: rest, wi, ti =>
    match env.busErr wi with
    | none =>
      let r := runActs env rest (wi + 1) ti
      (Ev.dc false :: Ev.cs false :: Ev.writeCmd c :: Ev.cs true :: r.1, r.2)
    | some e => ([Ev.dc false, Ev.cs false, Ev.writeCmd c, Ev.cs true], Except.error e)
  | Act.sendData b :: rest, wi, ti =>
    match env.busErr wi with
    | none =>
      let r := runActs env rest (wi + 1) ti
      (Ev.dc true :: Ev.cs false :: Ev.write [b] :: Ev.cs true :: r.1, r.2)
    | some e => ([Ev.dc true, Ev.cs false, Ev.write [b], Ev.cs true], Except.error e)
  | Act.sendMultipleData bs :: rest, wi, ti =>
    match env.busErr wi with
    | none =>
      let r := runActs env rest (wi + 1) ti
      (Ev.dc true :: Ev.cs false :: Ev.write bs :: Ev.cs true :: r.1, r.2)
    | some e => ([Ev.dc true, Ev.cs false, Ev.write bs, Ev.cs true], Except.error e)
  | Act.delayMs n :: rest, wi, ti =>
    let r := runActs env rest wi ti
    (Ev.delayMs n :: r.1, r.2)
  | Act.waitUntilIdle :: rest, wi, ti =>
    let r := runActs env rest wi (ti + 1)
    (waitEvents (env.idleLows ti) ++ r.1, r.2)
  | Act.rstLow :: rest, wi, ti =>
    let r := runActs env rest wi ti
    (Ev.rst false :: r.1, r.2)
  | Act.rstHigh :: rest, wi, ti =>
    let r := runActs env rest wi ti
    (Ev.rst true :: r.1, r.2)

/-- The five LUT byte tables `set_lut` resp. `set_lut_quick` transmit.
`src/epd4in2/lut.rs` (defining `LUT_VCOM0`, `LUT_WW`, …) is not among the
available sources, so the tables are parameters: the operations below are
quantified over their contents, which no claim inspects. -/
structure Luts where
  lut_vcom : List Nat
  lut_ww : List Nat
  lut_bw : List Nat
  lut_wb : List Nat
  lut_bb : List Nat

/-- Panel width fixed in `EPD4in2::new` (`let width = 400`). -/
def epd4in2_width : Nat := 400

/-- Panel height fixed in `EPD4in2::new` (`let height = 300`). -/
def epd4in2_height : Nat := 300

/-- `EPD4in2::reset`: reset pin low, 200 ms delay, reset pin high, 200 ms
delay. -/
def reset_acts : List Act :=
  [Act.rstLow, Act.delayMs 200, Act.rstHigh, Act.delayMs 200]

/-- `EPD4in2::init`: reset, then POWER_SETTING with data 0x03 0x00 0x2b
0x2b 0xff, BOOSTER_SOFT_START with three 0x17 data bytes, POWER_ON
followed by `wait_until_idle`, PANEL_SETTING with data 0x3F, PLL_CONTROL
with data 0x3A. -/
def init_acts : List Act :=
  reset_acts ++
  [Act.sendCommand .POWER_SETTING,
   Act.sendData 0x03, Act.sendData 0x00, Act.sendData 0x2b,
   Act.sendData 0x2b, Act.sendData 0xff,
   Act.sendCommand .BOOSTER_SOFT_START] ++
  List.replicate 3 (Act.sendData 0x17) ++
  [Act.sendCommand .POWER_ON, Act.waitUntilIdle,
   Act.sendCommand .PANEL_SETTING, Act.sendData 0x3F,
   Act.sendCommand .PLL_CONTROL, Act.sendData 0x3A]

/-- `EPD4in2::send_resolution`: RESOLUTION_SETTING, then width and height
each split big-endian into two data bytes (`w >> 8` then `w as u8`).
Arguments are reduced mod 2^16 at entry, matching their Rust `u16` type. -/
def send_resolution_acts (w0 h0 : Nat) : List Act :=
  let w := w0 % 65536
  let h := h0 % 65536
  [Act.sendCommand .RESOLUTION_SETTING,
   Act.sendData ((w >>> 8) % 256), Act.sendData (w % 256),
   Act.sendData ((h >>> 8) % 256), Act.sendData (h % 256)]

/-- `EPD4in2::set_lut_helper`: each of the five LUT tables as one command
followed by the table's bytes in one `send_multiple_data` transfer. -/
def set_lut_helper_acts (lut_vcom lut_ww lut_bw lut_wb lut_bb : List Nat) : List Act :=
  [Act.sendCommand .LUT_FOR_VCOM, Act.sendMultipleData lut_vcom,
   Act.sendCommand .LUT_WHITE_TO_WHITE, Act.sendMultipleData lut_ww,
   Act.sendCommand .LUT_BLACK_TO_WHITE, Act.sendMultipleData lut_bw,
   Act.sendCommand .LUT_WHITE_TO_BLACK, Act.sendMultipleData lut_wb,
   Act.sendCommand .LUT_BLACK_TO_BLACK, Act.sendMultipleData lut_bb]

/-- `EPD4in2::set_lut`: `set_lut_helper` applied to the five full-refresh
tables (`LUT_VCOM0`, `LUT_WW`, `LUT_BW`, `LUT_WB`, `LUT_BB`), here a
`Luts` parameter since `lut.rs` is not among the sources. -/
def set_lut_acts (full : Luts) : List Act :=
  set_lut_helper_acts full.lut_vcom full.lut_ww full.lut_bw full.lut_wb full.lut_bb

/-- `EPD4in2::set_lut_quick`: `set_lut_helper` applied to the five
quick-refresh tables (`LUT_VCOM0_QUICK`, …). -/
def set_lut_quick_acts (quick : Luts) : List Act :=
  set_lut_helper_acts quick.lut_vcom quick.lut_ww quick.lut_bw quick.lut_wb quick.lut_bb

/-- `EPD4in2::display_and_transfer_frame(buffer, color)`: resolution,
VCM_DC_SETTING with 0x12, VCOM_AND_DATA_INTERVAL_SETTING with 0x97,
DATA_START_TRANSMISSION_1 followed by `buffer.len()` data bytes all equal
to `color.unwrap_or(0xff)`, 2 ms delay, DATA_START_TRANSMISSION_2 followed
by `buffer` in one transfer, 2 ms delay, `set_lut`, DISPLAY_REFRESH, 10 ms
delay, `wait_until_idle`. -/
def display_and_transfer_frame_acts (w h : Nat) (buffer : List Nat)
    (color : Option Nat) (full : Luts) : List Act :=
  let c := (color.getD 0xff) % 256
  send_resolution_acts w h ++
  [Act.sendCommand .VCM_DC_SETTING, Act.sendData 0x12,
   Act.sendCommand .VCOM_AND_DATA_INTERVAL_SETTING, Act.sendData 0x97,
   Act.sendCommand .DATA_START_TRANSMISSION_1] ++
  List.replicate buffer.length (Act.sendData c) ++
  [Act.delayMs 2,
   Act.sendCommand .DATA_START_TRANSMISSION_2,
   Act.sendMultipleData buffer,
   Act.delayMs 2] ++
  set_lut_acts full ++
  [Act.sendCommand .DISPLAY_REFRESH, Act.delayMs 10, Act.waitUntilIdle]

/-- `EPD4in2::set_partial_window(buffer, x, y, w, l, is_dtm1)`.  The
buffer-length check at the top of the source function has an entirely
commented-out body and so has no effect.  All `u16` arithmetic is modelled
mod 2^16 (wrapping); `tmp + w - 1` and `y + l - 1` are written as
`+ 65535` mod 2^16.  Note `x & 0xf8` is a 16-bit AND: it clears the high
byte of `x`, and the X-end computation starts from that cleared value,
while the transmitted X-start high byte is `(x >> 8) as u8` of the raw
`x`. -/
def set_partial_window_acts (buffer : List Nat) (x0 y0 w0 l0 : Nat)
    (is_dtm1 : Bool) : List Act :=
  let x := x0 % 65536
  let y := y0 % 65536
  let w := w0 % 65536
  let l := l0 % 65536
  let tmp := x &&& 0xf8
  let tmp2 := (tmp + w + 65535) % 65536
  let ye := (y + l + 65535) % 65536
  [Act.sendCommand .PARTIAL_IN,
   Act.sendCommand .PARTIAL_WINDOW,
   Act.sendData ((x >>> 8) % 256),
   Act.sendData (tmp % 256),
   Act.sendData ((tmp2 >>> 8) % 256),
   Act.sendData ((tmp2 ||| 0x07) % 256),
   Act.sendData ((y >>> 8) % 256),
   Act.sendData (y % 256),
   Act.sendData ((ye >>> 8) % 256),
   Act.sendData (ye % 256),
   Act.sendData 0x01,
   Act.sendCommand
     (if is_dtm1 then .DATA_START_TRANSMISSION_1 else .DATA_START_TRANSMISSION_2),
   Act.sendMultipleData buffer,
   Act.sendCommand .PARTIAL_OUT]

/-- `EPD4in2::clear_frame(reset_color)`: resolution, then both image
planes written as `width / 8 * height` copies of
`reset_color.unwrap_or(0xff)`, with 2 ms delays as in the source. -/
def clear_frame_acts (w0 h0 : Nat) (reset_color : Option Nat) : List Act :=
  let w := w0 % 65536
  let h := h0 % 65536
  let rc := (reset_color.getD 0xff) % 256
  let size := (w / 8 * h) % 65536
  send_resolution_acts w0 h0 ++
  [Act.sendCommand .DATA_START_TRANSMISSION_1, Act.delayMs 2] ++
  List.replicate size (Act.sendData rc) ++
  [Act.delayMs 2, Act.sendCommand .DATA_START_TRANSMISSION_2, Act.delayMs 2] ++
  List.replicate size (Act.sendData rc)

/-- `EPD4in2::display_frame`: full-refresh LUTs, DISPLAY_REFRESH, 100 ms
delay, `wait_until_idle`. -/
def display_frame_acts (full : Luts) : List Act :=
  set_lut_acts full ++
  [Act.sendCommand .DISPLAY_REFRESH, Act.delayMs 100, Act.waitUntilIdle]

/-- `EPD4in2::display_frame_quick`: quick-refresh LUTs, DISPLAY_REFRESH,
1 ms delay, `wait_until_idle`. -/
def display_frame_quick_acts (quick : Luts) : List Act :=
  set_lut_quick_acts quick ++
  [Act.sendCommand .DISPLAY_REFRESH, Act.delayMs 1, Act.waitUntilIdle]

/-- `EPD4in2::sleep`: VCOM_AND_DATA_INTERVAL_SETTING with 0x17,
VCM_DC_SETTING (no data), PANEL_SETTING, 100 ms delay, POWER_SETTING with
four 0x00 data bytes, 100 ms delay, POWER_OFF followed by
`wait_until_idle`, DEEP_SLEEP with the single data byte 0xA5. -/
def sleep_acts : List Act :=
  [Act.sendCommand .VCOM_AND_DATA_INTERVAL_SETTING, Act.sendData 0x17,
   Act.sendCommand .VCM_DC_SETTING,
   Act.sendCommand .PANEL_SETTING,
   Act.delayMs 100,
   Act.sendCommand .POWER_SETTING] ++
  List.replicate 4 (Act.sendData 0x00) ++
  [Act.delayMs 100,
   Act.sendCommand .POWER_OFF, Act.waitUntilIdle,
   Act.sendCommand .DEEP_SLEEP, Act.sendData 0xA5]

/-- Number of SPI write attempts an action list performs when no transfer
fails (one per send action). -/
def numWrites : List Act → Nat
  | [] => 0
  | Act.sendCommand _ :: r => numWrites r + 1
  | Act.sendData _ :: r => numWrites r + 1
  | Act.sendMultipleData _ :: r => numWrites r + 1
  | _ :: r => numWrites r

/-- Number of `wait_until_idle` calls in an action list. -/
def numWaits : List Act → Nat
  | [] => 0
  | Act.waitUntilIdle :: r => numWaits r + 1
  | _ :: r => numWaits r

/-- The sequence of SPI write events an action list attempts, in order,
when no transfer fails. -/
def actWrites : List Act → List Ev
  | [] => []
  | Act.sendCommand c :: r => Ev.writeCmd c :: actWrites r
  | Act.sendData b :: r => Ev.write [b] :: actWrites r
  | Act.sendMultipleData bs :: r => Ev.write bs :: actWrites r
  | _ :: r => actWrites r

/-- The SPI write events of a trace, in order. -/
def evWrites : List Ev → List Ev
  | [] => []
  | Ev.writeCmd c :: r => Ev.writeCmd c :: evWrites r
  | Ev.write bs :: r => Ev.write bs :: evWrites r
  | _ :: r => evWrites r

/-- The single data bytes an action list sends via `send_data`, in order. -/
def dataBytesOf : List Act → List Nat
  | [] => []
  | Act.sendData b :: r => b :: dataBytesOf r
  | _ :: r => dataBytesOf r

/-- The X-start and X-end bytes of the partial-window block as claim C3
words them: the X start is `x & 0xf8` ("x truncated down to a multiple of
8") and the X end is `(x & 0xf8) + w - 1` with the low three bits forced
to 1, each split big-endian across two bytes.  This follows the claim's
words, for comparison against `set_partial_window_acts`, which is
transcribed from the source. -/
def claimedPartialXBytes (x w : Nat) : List Nat :=
  let s := x &&& 0xf8
  let e := ((x &&& 0xf8) + w + 65535) % 65536 ||| 0x07
  [(s >>> 8) % 256, s % 256, (e >>> 8) % 256, e % 256]

/-- The same claim under the alternative reading in which "x truncated
down to a multiple of 8" means the full 16-bit truncation `x & 0xfff8`
(clearing only the low three bits), used consistently for both the X
start and the X end. -/
def claimedPartialXBytesTrunc (x w : Nat) : List Nat :=
  let s := x &&& 0xfff8
  let e := ((x &&& 0xfff8) + w + 65535) % 65536 ||| 0x07
  [(s >>> 8) % 256, s % 256, (e >>> 8) % 256, e % 256]

/-- `EPD4in2::wait_until_idle` with fuel: the source loop
`while self.busy.is_low() { self.delay_ms(10); }` over a stream of busy-pin
readings (`isLow i` = the `i`-th poll reads low), returning the event
trace of the call, or `none` when `fuel` polls did not suffice.  The loop
itself has no bound; the fuel only truncates our observation of it, and a
run in which every poll reads low is `none` at every fuel. -/
def wait_until_idle_fuel (isLow : Nat → Bool) : Nat → Nat → Option (List Ev)
  | 0, _ => none
  | fuel + 1, i =>
    if isLow i then
      match wait_until_idle_fuel isLow fuel (i + 1) with
      | some tr => some (Ev.busyRead true :: Ev.delayMs 10 :: tr)
      | none => none
    else
      some [Ev.busyRead false]

@[simp]
theorem okEnv_busErr {ε : Type} (lows : Nat → Nat) (i : Nat) :
    (okEnv (ε := ε) lows).busErr i = none := rfl

@[simp]
theorem okEnv_idleLows {ε : Type} (lows : Nat → Nat) (i : Nat) :
    (okEnv (ε := ε) lows).idleLows i = lows i := rfl

theorem runActs_ok_res {ε : Type} (lows : Nat → Nat) :
    ∀ (acts : List Act) (wi ti : Nat),
    (runActs (okEnv (ε := ε) lows) acts wi ti).2 = Except.ok () := by
  intro acts
  induction acts with
  | nil => intro wi ti; simp [runActs]
  | cons a as ih =>
    intro wi ti
    cases a <;> simp [runActs, ih]

theorem runActs_ok_append {ε : Type} (lows : Nat → Nat) :
    ∀ (as bs : List Act) (wi ti : Nat),
    runActs (okEnv (ε := ε) lows) (as ++ bs) wi ti =
      ((runActs (okEnv (ε := ε) lows) as wi ti).1 ++
         (runActs (okEnv (ε := ε) lows) bs (wi + numWrites as) (ti + numWaits as)).1,
       (runActs (okEnv (ε := ε) lows) bs (wi + numWrites as) (ti + numWaits as)).2) := by
  intro as
  induction as with
  | nil => intro bs wi ti; simp [runActs, numWrites, numWaits]
  | cons a as ih =>
    intro bs wi ti
    cases a <;>
      simp [runActs, numWrites, numWaits, ih, Nat.add_comm,
        Nat.add_left_comm, Nat.add_assoc]

theorem runActs_ok_replicate_sendData {ε : Type} (lows : Nat → Nat) :
    ∀ (n : Nat) (c : Nat) (wi ti : Nat),
    runActs (okEnv (ε := ε) lows) (List.replicate n (Act.sendData c)) wi ti =
      ((List.replicate n [Ev.dc true, Ev.cs false, Ev.write [c], Ev.cs true]).flatten,
       Except.ok ()) := by
  intro n
  induction n with
  | zero => intro c wi ti; simp [runActs]
  | succ n ih =>
    intro c wi ti
    simp [List.replicate_succ, runActs, ih]

@[simp]
theorem numWrites_replicate_sendData (n c : Nat) :
    numWrites (List.replicate n (Act.sendData c)) = n := by
  induction n with
  | zero => simp [numWrites]
  | succ n ih => simp [List.replicate_succ, numWrites, ih]

@[simp]
theorem numWaits_replicate_sendData (n c : Nat) :
    numWaits (List.replicate n (Act.sendData c)) = 0 := by
  induction n with
  | zero => simp [numWaits]
  | succ n ih => simp [List.replicate_succ, numWaits, ih]

@[simp]
theorem evWrites_append (a b : List Ev) :
    evWrites (a ++ b) = evWrites a ++ evWrites b := by
  induction a with
  | nil => simp [evWrites]
  | cons e r ih => cases e <;> simp [evWrites, ih]

@[simp]
theorem evWrites_waitEvents (k : Nat) : evWrites (waitEvents k) = [] := by
  induction k with
  | zero => simp [waitEvents, evWrites]
  | succ k ih => simp [waitEvents, evWrites, ih]

theorem runActs_first_fail {ε : Type} (env : Env ε) (e : ε) :
    ∀ (acts : List Act) (wi ti k : Nat),
    env.busErr (wi + k) = some e →
    (∀ j, j < k → env.busErr (wi + j) = none) →
    k < numWrites acts →
    (runActs env acts wi ti).2 = Except.error e ∧
    evWrites (runActs env acts wi ti).1 = (actWrites acts).take (k + 1) := by
  intro acts
  induction acts with
  | nil =>
    intro wi ti k hk hpre hcount
    simp [numWrites] at hcount
  | cons a as ih =>
    intro wi ti k hk hpre hcount
    cases a with
    | sendCommand c =>
      cases k with
      | zero =>
        rw [Nat.add_zero] at hk
        simp [runActs, hk, evWrites, actWrites]
      | succ k =>
        have h0 : env.busErr wi = none := by simpa using hpre 0 (Nat.succ_pos k)
        have hk' : env.busErr (wi + 1 + k) = some e := by
          rw [show wi + 1 + k = wi + (k + 1) by omega]; exact hk
        have hpre' : ∀ j, j < k → env.busErr (wi + 1 + j) = none := by
          intro j hj
          rw [show wi + 1 + j = wi + (j + 1) by omega]
          exact hpre (j + 1) (by omega)
        have hcount' : k < numWrites as := by
          simp [numWrites] at hcount; omega
        obtain ⟨h1, h2⟩ := ih (wi + 1) ti k hk' hpre' hcount'
        simp [runActs, h0, evWrites, actWrites, h1, h2]
    | sendData b =>
      cases k with
      | zero =>
        rw [Nat.add_zero] at hk
        simp [runActs, hk, evWrites, actWrites]
      | succ k =>
        have h0 : env.busErr wi = none := by simpa using hpre 0 (Nat.succ_pos k)
        have hk' : env.busErr (wi + 1 + k) = some e := by
          rw [show wi + 1 + k = wi + (k + 1) by omega]; exact hk
        have hpre' : ∀ j, j < k → env.busErr (wi + 1 + j) = none := by
          intro j hj
          rw [show wi + 1 + j = wi + (j + 1) by omega]
          exact hpre (j + 1) (by omega)
        have hcount' : k < numWrites as := by
          simp [numWrites] at hcount; omega
        obtain ⟨h1, h2⟩ := ih (wi + 1) ti k hk' hpre' hcount'
        simp [runActs, h0, evWrites, actWrites, h1, h2]
    | sendMultipleData bs =>
      cases k with
      | zero =>
        rw [Nat.add_zero] at hk
        simp [runActs, hk, evWrites, actWrites]
      | succ k =>
        have h0 : env.busErr wi = none := by simpa using hpre 0 (Nat.succ_pos k)
        have hk' : env.busErr (wi + 1 + k) = some e := by
          rw [show wi + 1 + k = wi + (k + 1) by omega]; exact hk
        have hpre' : ∀ j, j < k → env.busErr (wi + 1 + j) = none := by
          intro j hj
          rw [show wi + 1 + j = wi + (j + 1) by omega]
          exact hpre (j + 1) (by omega)
        have hcount' : k < numWrites as := by
          simp [numWrites] at hcount; omega
        obtain ⟨h1, h2⟩ := ih (wi + 1) ti k hk' hpre' hcount'
        simp [runActs, h0, evWrites, actWrites, h1, h2]
    | delayMs n =>
      have hcount' : k < numWrites as := by simpa [numWrites] using hcount
      obtain ⟨h1, h2⟩ := ih wi ti k hk hpre hcount'
      simp [runActs, evWrites, actWrites, h1, h2]
    | waitUntilIdle =>
      have hcount' : k < numWrites as := by simpa [numWrites] using hcount
      obtain ⟨h1, h2⟩ := ih wi (ti + 1) k hk hpre hcount'
      simp [runActs, evWrites, actWrites, h1, h2]
    | rstLow =>
      have hcount' : k < numWrites as := by simpa [numWrites] using hcount
      obtain ⟨h1, h2⟩ := ih wi ti k hk hpre hcount'
      simp [runActs, evWrites, actWrites, h1, h2]
    | rstHigh =>
      have hcount' : k < numWrites as := by simpa [numWrites] using hcount
      obtain ⟨h1, h2⟩ := ih wi ti k hk hpre hcount'
      simp [runActs, evWrites, actWrites, h1, h2]

theorem runActs_first_fail0 {ε : Type} (env : Env ε) (e : ε) (acts : List Act) (k : Nat)
    (hk : env.busErr k = some e) (hpre : ∀ j, j < k → env.busErr j = none)
    (hcount : k < numWrites acts) :
    (runActs env acts 0 0).2 = Except.error e ∧
    evWrites (runActs env acts 0 0).1 = (actWrites acts).take (k + 1) :=
  runActs_first_fail env e acts 0 0 k (by simpa using hk)
    (fun j hj => by simpa using hpre j hj) hcount

theorem wait_fuel_spin {isLow : Nat → Bool} (h : ∀ j, isLow j = true) :
    ∀ (fuel i : Nat), wait_until_idle_fuel isLow fuel i = none := by
  intro fuel
  induction fuel with
  | zero => intro i; simp [wait_until_idle_fuel]
  | succ f ih => intro i; simp [wait_until_idle_fuel, h i, ih]

theorem wait_fuel_terminates {isLow : Nat → Bool} :
    ∀ (n fuel i : Nat), isLow (i + n) = false →
    (∀ j, j < n → isLow (i + j) = true) → n < fuel →
    wait_until_idle_fuel isLow fuel i = some (waitEvents n) := by
  intro n
  induction n with
  | zero =>
    intro fuel i h0 _ hf
    cases fuel with
    | zero => omega
    | succ f =>
      rw [Nat.add_zero] at h0
      simp [wait_until_idle_fuel, h0, waitEvents]
  | succ n ih =>
    intro fuel i hn hpre hf
    cases fuel with
    | zero => omega
    | succ f =>
      have h0 : isLow i = true := by simpa using hpre 0 (Nat.succ_pos n)
      have hrec : wait_until_idle_fuel isLow f (i + 1) = some (waitEvents n) := by
        refine ih f (i + 1) ?_ ?_ (by omega)
        · rw [show i + 1 + n = i + (n + 1) by omega]; exact hn
        · intro j hj
          rw [show i + 1 + j = i + (j + 1) by omega]
          exact hpre (j + 1) (by omega)
      simp [wait_until_idle_fuel, h0, hrec, waitEvents]

end Epd4in2

end EpdWaveshare

namespace EpdWaveshare

namespace Epd2in9

/-- C9: the EPD2in9 `Command::address` mapping is total with no failure
mode (it is a Lean function on the three-variant enum), always yields a
one-byte value, and maps `DRIVER_OUTPUT_CONTROL` to 0x01,
`BOOSTER_SOFT_START_CONTROL` to 0x0C and `DEEP_SLEEP_MODE` to 0x10. -/
theorem C9_command_address_total :
    (∀ c : Command, c.address ≤ 0xff) ∧
    Command.address .DRIVER_OUTPUT_CONTROL = 0x01 ∧
    Command.address .BOOSTER_SOFT_START_CONTROL = 0x0C ∧
    Command.address .DEEP_SLEEP_MODE = 0x10 := by
  refine ⟨fun c => ?_, rfl, rfl, rfl⟩
  cases c <;> decide

end Epd2in9

namespace Epd4in2

/-- C2: on a bus where every transfer succeeds, `init` first performs the
electrical reset (reset pin low, 200 ms delay, reset pin high, 200 ms
delay) and then emits exactly: POWER_SETTING with data 0x03 0x00 0x2b 0x2b
0xff, BOOSTER_SOFT_START with three 0x17 data bytes, POWER_ON followed by
the busy-wait, PANEL_SETTING with data 0x3F, PLL_CONTROL with data 0x3A —
each byte in its chip-select/data-command frame, and no other bus
traffic.  `lows` is the number of low busy-pin polls during the wait. -/
theorem C2_init_transcript {ε : Type} (lows : Nat → Nat) :
    runActs (okEnv (ε := ε) lows) init_acts 0 0 =
      ([Ev.rst false, Ev.delayMs 200, Ev.rst true, Ev.delayMs 200,
        Ev.dc false, Ev.cs false, Ev.writeCmd .POWER_SETTING, Ev.cs true,
        Ev.dc true, Ev.cs false, Ev.write [0x03], Ev.cs true,
        Ev.dc true, Ev.cs false, Ev.write [0x00], Ev.cs true,
        Ev.dc true, Ev.cs false, Ev.write [0x2b], Ev.cs true,
        Ev.dc true, Ev.cs false, Ev.write [0x2b], Ev.cs true,
        Ev.dc true, Ev.cs false, Ev.write [0xff], Ev.cs true,
        Ev.dc false, Ev.cs false, Ev.writeCmd .BOOSTER_SOFT_START, Ev.cs true,
        Ev.dc true, Ev.cs false, Ev.write [0x17], Ev.cs true,
        Ev.dc true, Ev.cs false, Ev.write [0x17], Ev.cs true,
        Ev.dc true, Ev.cs false, Ev.write [0x17], Ev.cs true,
        Ev.dc false, Ev.cs false, Ev.writeCmd .POWER_ON, Ev.cs true] ++
       waitEvents (lows 0) ++
       [Ev.dc false, Ev.cs false, Ev.writeCmd .PANEL_SETTING, Ev.cs true,
        Ev.dc true, Ev.cs false, Ev.write [0x3F], Ev.cs true,
        Ev.dc false, Ev.cs false, Ev.writeCmd .PLL_CONTROL, Ev.cs true,
        Ev.dc true, Ev.cs false, Ev.write [0x3A], Ev.cs true],
       Except.ok ()) := by
  simp [init_acts, reset_acts, runActs, List.replicate_succ]

/-- C6: on a bus where every transfer succeeds, `sleep` emits exactly:
VCOM_AND_DATA_INTERVAL_SETTING with data 0x17, VCM_DC_SETTING (command
only), PANEL_SETTING (command only), a 100 ms delay, POWER_SETTING with
four 0x00 data bytes, another 100 ms delay, POWER_OFF followed by the
busy-wait, and DEEP_SLEEP with the single data byte 0xA5. -/
theorem C6_sleep_transcript {ε : Type} (lows : Nat → Nat) :
    runActs (okEnv (ε := ε) lows) sleep_acts 0 0 =
      ([Ev.dc false, Ev.cs false, Ev.writeCmd .VCOM_AND_DATA_INTERVAL_SETTING, Ev.cs true,
        Ev.dc true, Ev.cs false, Ev.write [0x17], Ev.cs true,
        Ev.dc false, Ev.cs false, Ev.writeCmd .VCM_DC_SETTING, Ev.cs true,
        Ev.dc false, Ev.cs false, Ev.writeCmd .PANEL_SETTING, Ev.cs true,
        Ev.delayMs 100,
        Ev.dc false, Ev.cs false, Ev.writeCmd .POWER_SETTING, Ev.cs true,
        Ev.dc true, Ev.cs false, Ev.write [0x00], Ev.cs true,
        Ev.dc true, Ev.cs false, Ev.write [0x00], Ev.cs true,
        Ev.dc true, Ev.cs false, Ev.write [0x00], Ev.cs true,
        Ev.dc true, Ev.cs false, Ev.write [0x00], Ev.cs true,
        Ev.delayMs 100,
        Ev.dc false, Ev.cs false, Ev.writeCmd .POWER_OFF, Ev.cs true] ++
       waitEvents (lows 0) ++
       [Ev.dc false, Ev.cs false, Ev.writeCmd .DEEP_SLEEP, Ev.cs true,
        Ev.dc true, Ev.cs false, Ev.write [0xA5], Ev.cs true],
       Except.ok ()) := by
  simp [sleep_acts, runActs, List.replicate_succ]

/-- C4 (amended): every protocol byte transfer follows the same framing
discipline, but the data/command pin is driven first (low for a command
byte, high for a data byte), then chip-select is driven low, then exactly
one transfer is performed, then chip-select is driven high — in the
pin-event trace of every send, the data/command-pin event precedes the
chip-select-low event.  This holds whether the transfer succeeds or
fails. -/
theorem C4_send_framing {ε : Type} (env : Env ε) (wi ti : Nat)
    (c : Command) (b : Nat) (bs : List Nat) :
    (runActs env [Act.sendCommand c] wi ti).1 =
      [Ev.dc false, Ev.cs false, Ev.writeCmd c, Ev.cs true] ∧
    (runActs env [Act.sendData b] wi ti).1 =
      [Ev.dc true, Ev.cs false, Ev.write [b], Ev.cs true] ∧
    (runActs env [Act.sendMultipleData bs] wi ti).1 =
      [Ev.dc true, Ev.cs false, Ev.write bs, Ev.cs true] := by
  refine ⟨?_, ?_, ?_⟩ <;> cases h : env.busErr wi <;> simp [runActs, h]

/-- C4 is false as stated: in the trace of a `send_command` call the
data/command-pin event (index 0) precedes the chip-select-low event
(index 1), so chip-select-low does not precede the data/command event. -/
theorem C4_counterexample :
    (runActs (okEnv (ε := Unit) (fun _ => 0)) [Act.sendCommand .POWER_ON] 0 0).1 =
      [Ev.dc false, Ev.cs false, Ev.writeCmd .POWER_ON, Ev.cs true] ∧
    ¬ ((runActs (okEnv (ε := Unit) (fun _ => 0)) [Act.sendCommand .POWER_ON] 0 0).1.indexOf
         (Ev.cs false) <
       (runActs (okEnv (ε := Unit) (fun _ => 0)) [Act.sendCommand .POWER_ON] 0 0).1.indexOf
         (Ev.dc false)) := by
  decide

/-- C10: after every `send_command`, `send_data` or `send_multiple_data`
call the chip-select pin is left driven high: the trace of each send ends
with the chip-select-high event whatever the bus does, and when the SPI
write fails with `e`, the call still ends in chip-select-high and returns
`Except.error e` (`with_cs` releases chip-select on both paths before
returning the write's result). -/
theorem C10_cs_released {ε : Type} (env : Env ε) (wi ti : Nat)
    (c : Command) (b : Nat) (bs : List Nat) (e : ε) :
    ((runActs env [Act.sendCommand c] wi ti).1.getLast? = some (Ev.cs true) ∧
     (runActs env [Act.sendData b] wi ti).1.getLast? = some (Ev.cs true) ∧
     (runActs env [Act.sendMultipleData bs] wi ti).1.getLast? = some (Ev.cs true)) ∧
    (env.busErr wi = some e →
      (runActs env [Act.sendCommand c] wi ti).2 = Except.error e ∧
      (runActs env [Act.sendData b] wi ti).2 = Except.error e ∧
      (runActs env [Act.sendMultipleData bs] wi ti).2 = Except.error e) := by
  constructor
  · refine ⟨?_, ?_, ?_⟩ <;> cases h : env.busErr wi <;> simp [runActs, h]
  · intro h
    refine ⟨?_, ?_, ?_⟩ <;> simp [runActs, h]

/-- Witness for C10 at a concrete failing environment. -/
theorem C10_cs_released_witness :
    ((runActs (⟨fun _ => some 5, fun _ => 0⟩ : Env Nat)
        [Act.sendCommand .POWER_ON] 0 0).1.getLast? = some (Ev.cs true) ∧
     (runActs (⟨fun _ => some 5, fun _ => 0⟩ : Env Nat)
        [Act.sendData 3] 0 0).1.getLast? = some (Ev.cs true) ∧
     (runActs (⟨fun _ => some 5, fun _ => 0⟩ : Env Nat)
        [Act.sendMultipleData [1, 2]] 0 0).1.getLast? = some (Ev.cs true)) ∧
    ((runActs (⟨fun _ => some 5, fun _ => 0⟩ : Env Nat)
        [Act.sendCommand .POWER_ON] 0 0).2 = Except.error 5 ∧
     (runActs (⟨fun _ => some 5, fun _ => 0⟩ : Env Nat)
        [Act.sendData 3] 0 0).2 = Except.error 5 ∧
     (runActs (⟨fun _ => some 5, fun _ => 0⟩ : Env Nat)
        [Act.sendMultipleData [1, 2]] 0 0).2 = Except.error 5) :=
  ⟨(C10_cs_released ⟨fun _ => some 5, fun _ => 0⟩ 0 0 .POWER_ON 3 [1, 2] 5).1,
   (C10_cs_released ⟨fun _ => some 5, fun _ => 0⟩ 0 0 .POWER_ON 3 [1, 2] 5).2 rfl⟩

/-- C3 (amended): the partial-window addressing block transmits, in order,
the X-start high byte `(x >> 8) as u8` and low byte `x & 0xf8` (the
big-endian split of x truncated down to a multiple of 8); the X-end
computed as `(x & 0xf8) + w - 1` — a 16-bit AND, so starting from the
low-byte truncation with the high bits of `x` cleared — with the low three
bits forced to 1 in its transmitted low byte; the Y start and Y end
`y + l - 1` directly, each big-endian across two bytes; then the fixed
scan-mode byte 0x01.  In particular for x = 13, w = 16 the X-start bytes
are 0, 8 and the X-end bytes are 0, 23. -/
theorem C3_partial_window_encoding :
    (∀ {ε : Type} (lows : Nat → Nat) (buffer : List Nat) (x0 y0 w0 l0 : Nat)
       (is_dtm1 : Bool),
      runActs (okEnv (ε := ε) lows)
          (set_partial_window_acts buffer x0 y0 w0 l0 is_dtm1) 0 0 =
        ([Ev.dc false, Ev.cs false, Ev.writeCmd .PARTIAL_IN, Ev.cs true,
          Ev.dc false, Ev.cs false, Ev.writeCmd .PARTIAL_WINDOW, Ev.cs true,
          Ev.dc true, Ev.cs false, Ev.write [((x0 % 65536) >>> 8) % 256], Ev.cs true,
          Ev.dc true, Ev.cs false, Ev.write [((x0 % 65536) &&& 0xf8) % 256], Ev.cs true,
          Ev.dc true, Ev.cs false,
          Ev.write [(((((x0 % 65536) &&& 0xf8) + (w0 % 65536) + 65535) % 65536) >>> 8) % 256],
          Ev.cs true,
          Ev.dc true, Ev.cs false,
          Ev.write [((((x0 % 65536) &&& 0xf8) + (w0 % 65536) + 65535) % 65536 ||| 0x07) % 256],
          Ev.cs true,
          Ev.dc true, Ev.cs false, Ev.write [((y0 % 65536) >>> 8) % 256], Ev.cs true,
          Ev.dc true, Ev.cs false, Ev.write [(y0 % 65536) % 256], Ev.cs true,
          Ev.dc true, Ev.cs false,
          Ev.write [((((y0 % 65536) + (l0 % 65536) + 65535) % 65536) >>> 8) % 256], Ev.cs true,
          Ev.dc true, Ev.cs false,
          Ev.write [((y0 % 65536) + (l0 % 65536) + 65535) % 65536 % 256], Ev.cs true,
          Ev.dc true, Ev.cs false, Ev.write [0x01], Ev.cs true,
          Ev.dc false, Ev.cs false,
          Ev.writeCmd
            (if is_dtm1 then .DATA_START_TRANSMISSION_1 else .DATA_START_TRANSMISSION_2),
          Ev.cs true,
          Ev.dc true, Ev.cs false, Ev.write buffer, Ev.cs true,
          Ev.dc false, Ev.cs false, Ev.writeCmd .PARTIAL_OUT, Ev.cs true],
         Except.ok ())) ∧
    dataBytesOf (set_partial_window_acts [] 13 0 16 1 true) =
      [0, 8, 0, 23, 0, 0, 0, 0, 0x01] := by
  constructor
  · intro ε lows buffer x0 y0 w0 l0 is_dtm1
    simp [set_partial_window_acts, runActs]
  · decide

/-- C3 is false as stated: at x = 256, w = 8 the driver transmits the
X-start bytes 1, 0 (high byte `x >> 8` = 1), while the claim's encoding —
`x & 0xf8` split big-endian — gives 0, 0, because the 16-bit AND clears
the high byte of `x`. -/
theorem C3_counterexample :
    (dataBytesOf (set_partial_window_acts [] 256 0 8 1 true)).take 4 = [1, 0, 0, 7] ∧
    claimedPartialXBytes 256 8 = [0, 0, 0, 7] ∧
    (dataBytesOf (set_partial_window_acts [] 256 0 8 1 true)).take 4 ≠
      claimedPartialXBytes 256 8 ∧
    claimedPartialXBytesTrunc 256 8 = [1, 0, 1, 7] ∧
    (dataBytesOf (set_partial_window_acts [] 256 0 8 1 true)).take 4 ≠
      claimedPartialXBytesTrunc 256 8 := by
  decide

/-- C7: `set_partial_window` never enforces its buffer-length
precondition: for every buffer whose length differs from `w / 8 * l` (in
u16 arithmetic, as the source's inert check words it), the operation still
transmits `buffer` verbatim and returns `Ok` when all bus transfers
succeed. -/
theorem C7_no_buffer_length_check {ε : Type} (lows : Nat → Nat)
    (buffer : List Nat) (x y w l : Nat) (d : Bool)
    (_h : buffer.length % 65536 ≠ ((w % 65536) / 8 * (l % 65536)) % 65536) :
    (runActs (okEnv (ε := ε) lows)
        (set_partial_window_acts buffer x y w l d) 0 0).2 = Except.ok () ∧
    Ev.write buffer ∈
      (runActs (okEnv (ε := ε) lows)
        (set_partial_window_acts buffer x y w l d) 0 0).1 := by
  constructor
  · exact runActs_ok_res lows _ 0 0
  · simp [set_partial_window_acts, runActs]

/-- C1: on a bus where every transfer succeeds,
`display_and_transfer_frame(buffer, color)` emits, in order: the
resolution block (width and height each split big-endian into two data
bytes), VCM_DC_SETTING with data 0x12, VCOM_AND_DATA_INTERVAL_SETTING
with data 0x97, the old-image plane as exactly `buffer.length` data bytes
all equal to `color.unwrap_or(0xff)` (none sourced from `buffer`), a 2 ms
delay, the new-image plane as `buffer` verbatim, a 2 ms delay, the five
full-refresh LUT tables, DISPLAY_REFRESH, a 10 ms delay, and the busy-wait
until idle. -/
theorem C1_display_and_transfer_frame_transcript {ε : Type} (lows : Nat → Nat)
    (w h : Nat) (buffer : List Nat) (color : Option Nat) (full : Luts) :
    runActs (okEnv (ε := ε) lows)
        (display_and_transfer_frame_acts w h buffer color full) 0 0 =
      ([Ev.dc false, Ev.cs false, Ev.writeCmd .RESOLUTION_SETTING, Ev.cs true,
        Ev.dc true, Ev.cs false, Ev.write [((w % 65536) >>> 8) % 256], Ev.cs true,
        Ev.dc true, Ev.cs false, Ev.write [(w % 65536) % 256], Ev.cs true,
        Ev.dc true, Ev.cs false, Ev.write [((h % 65536) >>> 8) % 256], Ev.cs true,
        Ev.dc true, Ev.cs false, Ev.write [(h % 65536) % 256], Ev.cs true,
        Ev.dc false, Ev.cs false, Ev.writeCmd .VCM_DC_SETTING, Ev.cs true,
        Ev.dc true, Ev.cs false, Ev.write [0x12], Ev.cs true,
        Ev.dc false, Ev.cs false, Ev.writeCmd .VCOM_AND_DATA_INTERVAL_SETTING, Ev.cs true,
        Ev.dc true, Ev.cs false, Ev.write [0x97], Ev.cs true,
        Ev.dc false, Ev.cs false, Ev.writeCmd .DATA_START_TRANSMISSION_1, Ev.cs true] ++
       (List.replicate buffer.length
         [Ev.dc true, Ev.cs false, Ev.write [(color.getD 0xff) % 256], Ev.cs true]).flatten ++
       [Ev.delayMs 2,
        Ev.dc false, Ev.cs false, Ev.writeCmd .DATA_START_TRANSMISSION_2, Ev.cs true,
        Ev.dc true, Ev.cs false, Ev.write buffer, Ev.cs true,
        Ev.delayMs 2,
        Ev.dc false, Ev.cs false, Ev.writeCmd .LUT_FOR_VCOM, Ev.cs true,
        Ev.dc true, Ev.cs false, Ev.write full.lut_vcom, Ev.cs true,
        Ev.dc false, Ev.cs false, Ev.writeCmd .LUT_WHITE_TO_WHITE, Ev.cs true,
        Ev.dc true, Ev.cs false, Ev.write full.lut_ww, Ev.cs true,
        Ev.dc false, Ev.cs false, Ev.writeCmd .LUT_BLACK_TO_WHITE, Ev.cs true,
        Ev.dc true, Ev.cs false, Ev.write full.lut_bw, Ev.cs true,
        Ev.dc false, Ev.cs false, Ev.writeCmd .LUT_WHITE_TO_BLACK, Ev.cs true,
        Ev.dc true, Ev.cs false, Ev.write full.lut_wb, Ev.cs true,
        Ev.dc false, Ev.cs false, Ev.writeCmd .LUT_BLACK_TO_BLACK, Ev.cs true,
        Ev.dc true, Ev.cs false, Ev.write full.lut_bb, Ev.cs true,
        Ev.dc false, Ev.cs false, Ev.writeCmd .DISPLAY_REFRESH, Ev.cs true,
        Ev.delayMs 10] ++
       waitEvents (lows 0),
       Except.ok ()) := by
  simp [display_and_transfer_frame_acts, send_resolution_acts, set_lut_acts,
    set_lut_helper_acts, runActs_ok_append, runActs_ok_replicate_sendData,
    runActs, numWrites, numWaits, List.append_assoc]

/-- C5: for each multi-step operation (init, display_and_transfer_frame,
set_partial_window, clear_frame, display_frame, display_frame_quick,
sleep), if the k-th bus transfer fails with error `e` while all earlier
transfers succeeded, the operation returns that error, the transfers it
attempted are exactly the first k+1 of the operation's transfer sequence
(so nothing is sent after the failing transfer), and no transfer is ever
retried. -/
theorem C5_first_failure_aborts :
    (∀ {ε : Type} (env : Env ε) (e : ε) (k : Nat),
      env.busErr k = some e → (∀ j, j < k → env.busErr j = none) →
      k < numWrites init_acts →
      (runActs env init_acts 0 0).2 = Except.error e ∧
      evWrites (runActs env init_acts 0 0).1 = (actWrites init_acts).take (k + 1)) ∧
    (∀ {ε : Type} (env : Env ε) (e : ε) (k w h : Nat) (buffer : List Nat)
       (color : Option Nat) (full : Luts),
      env.busErr k = some e → (∀ j, j < k → env.busErr j = none) →
      k < numWrites (display_and_transfer_frame_acts w h buffer color full) →
      (runActs env (display_and_transfer_frame_acts w h buffer color full) 0 0).2 =
        Except.error e ∧
      evWrites (runActs env (display_and_transfer_frame_acts w h buffer color full) 0 0).1 =
        (actWrites (display_and_transfer_frame_acts w h buffer color full)).take (k + 1)) ∧
    (∀ {ε : Type} (env : Env ε) (e : ε) (k : Nat) (buffer : List Nat)
       (x y w l : Nat) (d : Bool),
      env.busErr k = some e → (∀ j, j < k → env.busErr j = none) →
      k < numWrites (set_partial_window_acts buffer x y w l d) →
      (runActs env (set_partial_window_acts buffer x y w l d) 0 0).2 = Except.error e ∧
      evWrites (runActs env (set_partial_window_acts buffer x y w l d) 0 0).1 =
        (actWrites (set_partial_window_acts buffer x y w l d)).take (k + 1)) ∧
    (∀ {ε : Type} (env : Env ε) (e : ε) (k w h : Nat) (rc : Option Nat),
      env.busErr k = some e → (∀ j, j < k → env.busErr j = none) →
      k < numWrites (clear_frame_acts w h rc) →
      (runActs env (clear_frame_acts w h rc) 0 0).2 = Except.error e ∧
      evWrites (runActs env (clear_frame_acts w h rc) 0 0).1 =
        (actWrites (clear_frame_acts w h rc)).take (k + 1)) ∧
    (∀ {ε : Type} (env : Env ε) (e : ε) (k : Nat) (full : Luts),
      env.busErr k = some e → (∀ j, j < k → env.busErr j = none) →
      k < numWrites (display_frame_acts full) →
      (runActs env (display_frame_acts full) 0 0).2 = Except.error e ∧
      evWrites (runActs env (display_frame_acts full) 0 0).1 =
        (actWrites (display_frame_acts full)).take (k + 1)) ∧
    (∀ {ε : Type} (env : Env ε) (e : ε) (k : Nat) (quick : Luts),
      env.busErr k = some e → (∀ j, j < k → env.busErr j = none) →
      k < numWrites (display_frame_quick_acts quick) →
      (runActs env (display_frame_quick_acts quick) 0 0).2 = Except.error e ∧
      evWrites (runActs env (display_frame_quick_acts quick) 0 0).1 =
        (actWrites (display_frame_quick_acts quick)).take (k + 1)) ∧
    (∀ {ε : Type} (env : Env ε) (e : ε) (k : Nat),
      env.busErr k = some e → (∀ j, j < k → env.busErr j = none) →
      k < numWrites sleep_acts →
      (runActs env sleep_acts 0 0).2 = Except.error e ∧
      evWrites (runActs env sleep_acts 0 0).1 = (actWrites sleep_acts).take (k + 1)) := by
  refine ⟨?_, ?_, ?_, ?_, ?_, ?_, ?_⟩
  · intro ε env e k hk hpre hc
    exact runActs_first_fail0 env e _ k hk hpre hc
  · intro ε env e k w h buffer color full hk hpre hc
    exact runActs_first_fail0 env e _ k hk hpre hc
  · intro ε env e k buffer x y w l d hk hpre hc
    exact runActs_first_fail0 env e _ k hk hpre hc
  · intro ε env e k w h rc hk hpre hc
    exact runActs_first_fail0 env e _ k hk hpre hc
  · intro ε env e k full hk hpre hc
    exact runActs_first_fail0 env e _ k hk hpre hc
  · intro ε env e k quick hk hpre hc
    exact runActs_first_fail0 env e _ k hk hpre hc
  · intro ε env e k hk hpre hc
    exact runActs_first_fail0 env e _ k hk hpre hc

/-- Witness for C5: in an environment whose very first SPI transfer fails
with error 7, each of the seven operations returns `Except.error 7` and
attempts exactly one transfer, the first of its sequence. -/
theorem C5_first_failure_aborts_witness :
    ((runActs (⟨fun i => if i = 0 then some 7 else none, fun _ => 0⟩ : Env Nat)
        init_acts 0 0).2 = Except.error 7 ∧
     evWrites (runActs (⟨fun i => if i = 0 then some 7 else none, fun _ => 0⟩ : Env Nat)
        init_acts 0 0).1 = (actWrites init_acts).take 1) ∧
    ((runActs (⟨fun i => if i = 0 then some 7 else none, fun _ => 0⟩ : Env Nat)
        (display_and_transfer_frame_acts 0 0 [] none ⟨[], [], [], [], []⟩) 0 0).2 =
       Except.error 7 ∧
     evWrites (runActs (⟨fun i => if i = 0 then some 7 else none, fun _ => 0⟩ : Env Nat)
        (display_and_transfer_frame_acts 0 0 [] none ⟨[], [], [], [], []⟩) 0 0).1 =
       (actWrites (display_and_transfer_frame_acts 0 0 [] none ⟨[], [], [], [], []⟩)).take 1) ∧
    ((runActs (⟨fun i => if i = 0 then some 7 else none, fun _ => 0⟩ : Env Nat)
        (set_partial_window_acts [] 0 0 8 1 true) 0 0).2 = Except.error 7 ∧
     evWrites (runActs (⟨fun i => if i = 0 then some 7 else none, fun _ => 0⟩ : Env Nat)
        (set_partial_window_acts [] 0 0 8 1 true) 0 0).1 =
       (actWrites (set_partial_window_acts [] 0 0 8 1 true)).take 1) ∧
    ((runActs (⟨fun i => if i = 0 then some 7 else none, fun _ => 0⟩ : Env Nat)
        (clear_frame_acts 8 1 none) 0 0).2 = Except.error 7 ∧
     evWrites (runActs (⟨fun i => if i = 0 then some 7 else none, fun _ => 0⟩ : Env Nat)
        (clear_frame_acts 8 1 none) 0 0).1 = (actWrites (clear_frame_acts 8 1 none)).take 1) ∧
    ((runActs (⟨fun i => if i = 0 then some 7 else none, fun _ => 0⟩ : Env Nat)
        (display_frame_acts ⟨[], [], [], [], []⟩) 0 0).2 = Except.error 7 ∧
     evWrites (runActs (⟨fun i => if i = 0 then some 7 else none, fun _ => 0⟩ : Env Nat)
        (display_frame_acts ⟨[], [], [], [], []⟩) 0 0).1 =
       (actWrites (display_frame_acts ⟨[], [], [], [], []⟩)).take 1) ∧
    ((runActs (⟨fun i => if i = 0 then some 7 else none, fun _ => 0⟩ : Env Nat)
        (display_frame_quick_acts ⟨[], [], [], [], []⟩) 0 0).2 = Except.error 7 ∧
     evWrites (runActs (⟨fun i => if i = 0 then some 7 else none, fun _ => 0⟩ : Env Nat)
        (display_frame_quick_acts ⟨[], [], [], [], []⟩) 0 0).1 =
       (actWrites (display_frame_quick_acts ⟨[], [], [], [], []⟩)).take 1) ∧
    ((runActs (⟨fun i => if i = 0 then some 7 else none, fun _ => 0⟩ : Env Nat)
        sleep_acts 0 0).2 = Except.error 7 ∧
     evWrites (runActs (⟨fun i => if i = 0 then some 7 else none, fun _ => 0⟩ : Env Nat)
        sleep_acts 0 0).1 = (actWrites sleep_acts).take 1) :=
  ⟨C5_first_failure_aborts.1 _ 7 0 rfl (fun j hj => absurd hj (Nat.not_lt_zero j)) (by decide),
   C5_first_failure_aborts.2.1 _ 7 0 0 0 [] none ⟨[], [], [], [], []⟩ rfl
     (fun j hj => absurd hj (Nat.not_lt_zero j)) (by decide),
   C5_first_failure_aborts.2.2.1 _ 7 0 [] 0 0 8 1 true rfl
     (fun j hj => absurd hj (Nat.not_lt_zero j)) (by decide),
   C5_first_failure_aborts.2.2.2.1 _ 7 0 8 1 none rfl
     (fun j hj => absurd hj (Nat.not_lt_zero j)) (by decide),
   C5_first_failure_aborts.2.2.2.2.1 _ 7 0 ⟨[], [], [], [], []⟩ rfl
     (fun j hj => absurd hj (Nat.not_lt_zero j)) (by decide),
   C5_first_failure_aborts.2.2.2.2.2.1 _ 7 0 ⟨[], [], [], [], []⟩ rfl
     (fun j hj => absurd hj (Nat.not_lt_zero j)) (by decide),
   C5_first_failure_aborts.2.2.2.2.2.2 _ 7 0 rfl
     (fun j hj => absurd hj (Nat.not_lt_zero j)) (by decide)⟩

/-- C8: `wait_until_idle` returns exactly when the busy pin reads
non-low.  On a run in which every poll reads low it never returns (it is
`none` at every fuel); when the first non-low poll is poll `n`, it returns
after exactly `n + 1` polls with a 10 ms delay between consecutive polls
(the trace `waitEvents n`), and the wait performs no bus transfers. -/
theorem C8_wait_until_idle :
    (∀ (isLow : Nat → Bool), (∀ j, isLow j = true) →
      ∀ fuel, wait_until_idle_fuel isLow fuel 0 = none) ∧
    (∀ (isLow : Nat → Bool) (n fuel : Nat),
      isLow n = false → (∀ j, j < n → isLow j = true) → n < fuel →
      wait_until_idle_fuel isLow fuel 0 = some (waitEvents n) ∧
      evWrites (waitEvents n) = []) := by
  constructor
  · intro isLow h fuel
    exact wait_fuel_spin h fuel 0
  · intro isLow n fuel hn hpre hf
    refine ⟨?_, evWrites_waitEvents n⟩
    exact wait_fuel_terminates n fuel 0 (by simpa using hn)
      (fun j hj => by simpa using hpre j hj) hf

/-- Witness for C8: a pin that always reads low never lets the wait
return; a pin that reads low on polls 0 and 1 and high on poll 2 returns
the three-poll trace with 10 ms delays in between and no bus transfer. -/
theorem C8_wait_until_idle_witness :
    wait_until_idle_fuel (fun _ => true) 3 0 = none ∧
    (wait_until_idle_fuel (fun j => decide (j < 2)) 5 0 = some (waitEvents 2) ∧
     evWrites (waitEvents 2) = []) :=
  ⟨C8_wait_until_idle.1 (fun _ => true) (fun _ => rfl) 3,
   C8_wait_until_idle.2 (fun j => decide (j < 2)) 2 5 (by decide)
     (fun j hj => decide_eq_true hj) (by decide)⟩

/-- Witness for C7: a one-byte buffer against a window of `w / 8 * l = 2`
bytes is transmitted anyway and the call succeeds. -/
theorem C7_no_buffer_length_check_witness :
    ([1].length % 65536 ≠ (((16 : Nat) % 65536) / 8 * (1 % 65536)) % 65536) ∧
    ((runActs (okEnv (ε := Unit) (fun _ => 0))
        (set_partial_window_acts [1] 0 0 16 1 true) 0 0).2 = Except.ok () ∧
     Ev.write [1] ∈
       (runActs (okEnv (ε := Unit) (fun _ => 0))
         (set_partial_window_acts [1] 0 0 16 1 true) 0 0).1) :=
  ⟨by decide,
   C7_no_buffer_length_check (fun _ => 0) [1] 0 0 16 1 true (by decide)⟩

end Epd4in2

end EpdWaveshare
